import Mathlib

/-!
# nfcd repowerd plugin: power policy adapter

A shallow embedding of `src/repowerd_plugin.c`.  The plugin object is a record,
every C function is a Lean function from the plugin record (and whatever the
outside world hands back) to the new plugin record together with the list of
library calls it made, in program order.  A function that dereferences
`self->manager` returns `none` when that pointer is NULL.

The libraries the plugin links against (libnfcd, GLib/GIO, libglibutil) are not
part of the repository; each library function the plugin calls is represented
by a constructor of `Call`, and where the plugin consumes what the library
returns, by a small definition documenting the library behaviour relied upon.
-/

namespace Repowerd

/-! ## Data model -/

/-- Address of an `NfcManager` object (a non-NULL `NfcManager*`). -/
abbrev NfcManagerPtr := Nat

/-- Address of a `GDBusConnection` object (a non-NULL `GDBusConnection*`). -/
abbrev GDBusConnectionPtr := Nat

/-- The one field of the host object `NfcManager` that the plugin reads. -/
structure NfcManager where
  enabled : Bool
deriving DecidableEq, Repr

/-- The memory holding host objects: what `manager->enabled` evaluates to. -/
abbrev Heap := NfcManagerPtr → NfcManager

/-- Index `MANAGER_ENABLED` of `enum manager_events`. -/
def MANAGER_ENABLED : Nat := 0

/-- Value `MANAGER_EVENT_COUNT` of `enum manager_events`. -/
def MANAGER_EVENT_COUNT : Nat := 1

/-- The fields of `struct repowerd_plugin` (the `parent` instance header apart).
A pointer field is `none` when NULL; `manager_event_id` is the array of
`MANAGER_EVENT_COUNT` handler ids. -/
structure RepowerdPlugin where
  manager : Option NfcManagerPtr
  connection : Option GDBusConnectionPtr
  manager_event_id : List Nat
  subscription_id : Nat
  screen_on : Bool
  always_on : Bool
deriving DecidableEq, Repr

/-- An item of a bus message body, as far as the plugin can tell items apart: a
32-bit signed integer (type `i`), some other basic value, or a value of any
other type, named by its type string. -/
inductive GVariantItem where
  | int32 (v : Int)
  | uint32 (v : Nat)
  | boolean (b : Bool)
  | string (s : String)
  | other (type_string : String)
deriving Repr, DecidableEq

/-- The `parameters` of a bus signal: the bus library always delivers a tuple; the
list holds its items in order. -/
abbrev GVariant := List GVariantItem

/-- The content of a key file: groups, each a list of key/value lines, every
group name and every key of a group listed once. -/
abbrev GKeyFile := List (String × List (String × String))

/-- A call made by the plugin into one of its libraries, with its arguments. -/
inductive Call where
  | log (message : String)
  | printf (parameters : GVariant)
  | nfc_manager_request_power (manager : NfcManagerPtr) (power_on : Bool)
  | nfc_manager_ref (manager : NfcManagerPtr)
  | nfc_manager_add_enabled_changed_handler (manager : NfcManagerPtr)
  | g_bus_get_sync
  | g_dbus_connection_signal_subscribe (connection : Option GDBusConnectionPtr)
  | g_dbus_connection_signal_unsubscribe (connection : GDBusConnectionPtr)
      (subscription_id : Nat)
  | g_dbus_connection_close_sync (connection : GDBusConnectionPtr)
  | g_object_unref (connection : GDBusConnectionPtr)
  | nfc_manager_remove_all_handlers (manager : Option NfcManagerPtr) (ids : List Nat)
  | nfc_manager_unref (manager : Option NfcManagerPtr)
deriving Repr, DecidableEq

/-- Whether a call is a power request. -/
def Call.isRequestPower : Call → Bool
  | .nfc_manager_request_power _ _ => true
  | _ => false

/-- Whether a call is `g_bus_get_sync`. -/
def Call.isBusGet : Call → Bool
  | .g_bus_get_sync => true
  | _ => false

/-- Whether a call is `g_dbus_connection_signal_subscribe`, whatever its
connection argument. -/
def Call.isSubscribe : Call → Bool
  | .g_dbus_connection_signal_subscribe _ => true
  | _ => false

/-- Whether a call is `g_dbus_connection_signal_unsubscribe`. -/
def Call.isUnsubscribe : Call → Bool
  | .g_dbus_connection_signal_unsubscribe _ _ => true
  | _ => false

/-- Whether a call is `g_dbus_connection_close_sync`. -/
def Call.isClose : Call → Bool
  | .g_dbus_connection_close_sync _ => true
  | _ => false

/-- Whether a call goes to the message bus library at all. -/
def Call.isBusCall : Call → Bool
  | .g_bus_get_sync => true
  | .g_dbus_connection_signal_subscribe _ => true
  | .g_dbus_connection_signal_unsubscribe _ _ => true
  | .g_dbus_connection_close_sync _ => true
  | .g_object_unref _ => true
  | _ => false

/-- Whether a call reaches a host object: a call of the host library whose
`NfcManager*` argument is not NULL. -/
def Call.onHost : Call → Bool
  | .nfc_manager_request_power _ _ => true
  | .nfc_manager_ref _ => true
  | .nfc_manager_add_enabled_changed_handler _ => true
  | .nfc_manager_remove_all_handlers (some _) _ => true
  | .nfc_manager_unref (some _) => true
  | _ => false

/-- Whether a call releases a reference held on a host object. -/
def Call.releasesHost : Call → Bool
  | .nfc_manager_unref (some _) => true
  | _ => false

/-! ## Library behaviour the plugin relies on -/

/-- Library `nfc_manager_ref`: takes a reference and returns its argument. -/
def nfc_manager_ref (manager : NfcManagerPtr) : Option NfcManagerPtr :=
  some manager

/-- Library `g_dbus_connection_signal_subscribe`: on a connection it returns the
identifier the bus library hands out (`fresh`); a NULL connection fails its
argument check and the call returns 0 without subscribing. -/
def g_dbus_connection_signal_subscribe (connection : Option GDBusConnectionPtr)
    (fresh : Nat) : Nat :=
  match connection with
  | none => 0
  | some _ => fresh

/-- Library `nfc_manager_remove_all_handlers(m, ids)`, which expands to
`nfc_manager_remove_handlers(m, ids, G_N_ELEMENTS(ids))`: with a host, every
registered (non-zero) id is disconnected and zeroed; with a NULL host nothing is
touched. -/
def nfc_manager_remove_all_handlers (manager : Option NfcManagerPtr)
    (ids : List Nat) : List Nat :=
  match manager with
  | none => ids
  | some _ => ids.map (fun _ => 0)

/-- Library `g_variant_get(parameters, "(ii)", &state, &reason)`: the two integers
when the value is a pair of 32-bit signed integers, `none` (nothing is stored
through the two pointers) for a value of any other type. -/
def g_variant_get_ii : GVariant → Option (Int × Int)
  | [.int32 state, .int32 reason] => some (state, reason)
  | _ => none

/-- The file system as the key file library sees it: for a path, the parsed
content of the file there, `none` when the file is missing, unreadable or not a
key file. -/
abbrev Disk := String → Option GKeyFile

/-- Library `g_key_file_load_from_file(config, file, 0, NULL)`: the loaded content,
`none` standing for FALSE. -/
def g_key_file_load_from_file (disk : Disk) (file : String) : Option GKeyFile :=
  disk file

/-- The raw value stored under `key` of `group`, when there is one. -/
def g_key_file_lookup (config : GKeyFile) (group key : String) : Option String :=
  match config.lookup group with
  | none => none
  | some entries => entries.lookup key

/-- Library `g_ascii_isspace`: tab (9), line feed (10), form feed (12), carriage
return (13) and space (32); the vertical tab (11) is not white space. -/
def g_ascii_isspace (c : Char) : Bool :=
  c.toNat = 9 || c.toNat = 10 || c.toNat = 12 || c.toNat = 13 || c.toNat = 32

/-- How the key file library reads a raw value as a boolean: trailing white space
is ignored, `true` and `1` read as TRUE, `false` and `0` as FALSE, anything else
is an invalid value. -/
def g_key_file_parse_value_as_boolean (value : String) : Option Bool :=
  let v := (value.toList.reverse.dropWhile g_ascii_isspace).reverse
  if v = "true".toList ∨ v = "1".toList then some true
  else if v = "false".toList ∨ v = "0".toList then some false
  else none

/-- Library `g_key_file_get_boolean(config, group, key, NULL)`: the stored boolean;
FALSE when the key cannot be found or its value is not a boolean. -/
def g_key_file_get_boolean (config : GKeyFile) (group key : String) : Bool :=
  match g_key_file_lookup config group key with
  | none => false
  | some value => (g_key_file_parse_value_as_boolean value).getD false

/-! ## The plugin -/

/-- Constant `SETTINGS_STORAGE_PATH`. -/
def SETTINGS_STORAGE_PATH : String := "/var/lib/nfcd/settings"

/-- Constant `SETTINGS_GROUP`. -/
def SETTINGS_GROUP : String := "Settings"

/-- Constant `SETTINGS_KEY_ALWAYS_ON`. -/
def SETTINGS_KEY_ALWAYS_ON : String := "AlwaysOn"

/-- What a plugin function leaves behind: the plugin record and the library calls
made, in order; `none` when it dereferenced a NULL `self->manager`. -/
abbrev Outcome := Option (RepowerdPlugin × List Call)

/-- Function `repowerd_plugin_update_power` (lines 75-82). -/
def repowerd_plugin_update_power (heap : Heap) (self : RepowerdPlugin) : Outcome :=
  match self.manager with
  | none => none
  | some manager =>
    some (self, [Call.nfc_manager_request_power manager
      ((heap manager).enabled && (self.always_on || self.screen_on))])

/-- Function `repowerd_plugin_manager_state_handler` (lines 84-91): the `manager`
argument is not used. -/
def repowerd_plugin_manager_state_handler (heap : Heap) (_manager : NfcManagerPtr)
    (plugin : RepowerdPlugin) : Outcome :=
  repowerd_plugin_update_power heap plugin

/-- Function `repowerd_display_signal_cb` (lines 93-110).  `state` and `reason`
start at 0 and are overwritten only by a successful `g_variant_get`. -/
def repowerd_display_signal_cb (heap : Heap) (parameters : GVariant)
    (self : RepowerdPlugin) : Outcome :=
  let state : Int := 0
  let reason : Int := 0
  let (state, _reason) := (g_variant_get_ii parameters).getD (state, reason)
  let self := { self with screen_on := decide (state = 1) }
  match repowerd_plugin_update_power heap self with
  | none => none
  | some (self, calls) => some (self, Call.printf parameters :: calls)

/-- What the outside world hands back during `repowerd_plugin_start`. -/
structure StartEnv where
  /-- the id returned by `nfc_manager_add_enabled_changed_handler` -/
  handler_id : Nat
  /-- the connection returned by `g_bus_get_sync`; `none` is the failure case, in
  which the library returns NULL and sets `err` -/
  bus : Option GDBusConnectionPtr
  /-- the id the bus library hands out for a subscription -/
  fresh_subscription_id : Nat
deriving DecidableEq, Repr

/-- Function `repowerd_plugin_start` (lines 112-150); the third component is the
returned `gboolean`.  `GASSERT(!self->manager)` is a debug-build check that only
logs, so it does not appear.  `err != NULL` after `g_bus_get_sync` is the case
`env.bus = none`. -/
def repowerd_plugin_start (env : StartEnv) (heap : Heap) (self : RepowerdPlugin)
    (manager : NfcManagerPtr) : Option (RepowerdPlugin × List Call × Bool) :=
  let calls := [Call.log "Starting"]
  let self := { self with manager := nfc_manager_ref manager }
  let calls := calls ++ [Call.nfc_manager_ref manager]
  let self := { self with
    manager_event_id := self.manager_event_id.set MANAGER_ENABLED env.handler_id }
  let calls := calls ++ [Call.nfc_manager_add_enabled_changed_handler manager]
  if !self.always_on then
    let self := { self with connection := env.bus }
    let calls := calls ++ [Call.g_bus_get_sync]
    let calls :=
      if env.bus.isNone then calls ++ [Call.log "Failed to connect to system bus"]
      else calls
    let self := { self with
      subscription_id :=
        g_dbus_connection_signal_subscribe self.connection env.fresh_subscription_id }
    let calls := calls ++ [Call.g_dbus_connection_signal_subscribe self.connection]
    let self := { self with screen_on := true }
    match repowerd_plugin_update_power heap self with
    | none => none
    | some (self, calls1) =>
      match repowerd_plugin_update_power heap self with
      | none => none
      | some (self, calls2) => some (self, calls ++ calls1 ++ calls2, true)
  else
    match repowerd_plugin_update_power heap self with
    | none => none
    | some (self, calls2) => some (self, calls ++ calls2, true)

/-- Function `repowerd_plugin_stop` (lines 152-170). -/
def repowerd_plugin_stop (self : RepowerdPlugin) : RepowerdPlugin × List Call :=
  let calls := [Call.log "Stopping"]
  let (self, calls) :=
    match self.connection with
    | some connection =>
      ({ self with connection := none },
        calls ++ [Call.g_dbus_connection_signal_unsubscribe connection self.subscription_id,
          Call.g_dbus_connection_close_sync connection,
          Call.g_object_unref connection])
    | none => (self, calls)
  let calls := calls ++ [Call.nfc_manager_remove_all_handlers self.manager self.manager_event_id]
  let self := { self with
    manager_event_id := nfc_manager_remove_all_handlers self.manager self.manager_event_id }
  let calls := calls ++ [Call.nfc_manager_unref self.manager]
  let self := { self with manager := none }
  (self, calls)

/-- Function `repowerd_plugin_init` (lines 172-184). -/
def repowerd_plugin_init (disk : Disk) (self : RepowerdPlugin) : RepowerdPlugin :=
  match g_key_file_load_from_file disk SETTINGS_STORAGE_PATH with
  | some config =>
    { self with
      always_on := g_key_file_get_boolean config SETTINGS_GROUP SETTINGS_KEY_ALWAYS_ON }
  | none => self

/-- The instance memory `g_object_new` hands to the instance initialiser: every
field zero. -/
def g_object_new_zeroed : RepowerdPlugin :=
  { manager := none, connection := none,
    manager_event_id := List.replicate MANAGER_EVENT_COUNT 0,
    subscription_id := 0, screen_on := false, always_on := false }

/-- Function `repowerd_plugin_create` (lines 195-202): `g_object_new` allocates the
zeroed instance and runs `repowerd_plugin_init` on it. -/
def repowerd_plugin_create (disk : Disk) : RepowerdPlugin :=
  repowerd_plugin_init disk g_object_new_zeroed

/-! ## The host side: notifications reaching a started plugin -/

/-- The part of an outcome the power policy is about: the plugin record and the
power requests made. -/
def Outcome.policy (o : Outcome) : Option (RepowerdPlugin × List Call) :=
  o.map fun r => (r.1, r.2.filter Call.isRequestPower)

/-- A notification delivered to the plugin: the host changed its enabled flag, or
the bus delivered a display signal with the given parameters. -/
inductive Event where
  | enabled_changed (enabled : Bool)
  | display_signal (parameters : GVariant)
deriving Repr, DecidableEq

/-- The host object at `manager` gets a new value of its enabled flag. -/
def host_set_enabled (heap : Heap) (manager : NfcManagerPtr) (enabled : Bool) : Heap :=
  fun p => if p = manager then { heap p with enabled := enabled } else heap p

/-- Host memory together with the plugin object. -/
structure World where
  heap : Heap
  plugin : RepowerdPlugin

/-- One notification: for a change of the enabled flag the host `manager` stores
the new value and then invokes the registered handler; a display signal invokes
the signal callback. -/
def deliver (manager : NfcManagerPtr) (w : World) : Event → Option (World × List Call)
  | .enabled_changed enabled =>
    let heap := host_set_enabled w.heap manager enabled
    match repowerd_plugin_manager_state_handler heap manager w.plugin with
    | none => none
    | some (plugin, calls) => some ({ heap := heap, plugin := plugin }, calls)
  | .display_signal parameters =>
    match repowerd_display_signal_cb w.heap parameters w.plugin with
    | none => none
    | some (plugin, calls) => some ({ heap := w.heap, plugin := plugin }, calls)

/-- A sequence of notifications, one after the other.  For each notification the
result records the enabled flag of the host `manager` at the moment the
notification is handled, and the calls the plugin made while handling it. -/
def run (manager : NfcManagerPtr) : World → List Event →
    Option (World × List (Bool × List Call))
  | w, [] => some (w, [])
  | w, e :: es =>
    match deliver manager w e with
    | none => none
    | some (w1, calls) =>
      match run manager w1 es with
      | none => none
      | some (w2, observed) => some (w2, ((w1.heap manager).enabled, calls) :: observed)

/-! ## Concrete inputs -/

/-- A host memory in which every host is enabled. -/
def heap_enabled : Heap := fun _ => { enabled := true }

/-- A host memory in which every host is disabled. -/
def heap_disabled : Heap := fun _ => { enabled := false }

/-- The bus connects: handler id 5, connection 9, subscription id 3. -/
def env_bus_ok : StartEnv := { handler_id := 5, bus := some 9, fresh_subscription_id := 3 }

/-- The bus connection fails. -/
def env_bus_failed : StartEnv := { handler_id := 5, bus := none, fresh_subscription_id := 3 }

/-- A started plugin tracking the display: host 7, connection 9, screen on. -/
def plugin_started : RepowerdPlugin :=
  { manager := some 7, connection := some 9, manager_event_id := [5],
    subscription_id := 3, screen_on := true, always_on := false }

/-- A plugin whose configuration says always on, not started. -/
def plugin_always_on : RepowerdPlugin :=
  { g_object_new_zeroed with always_on := true }

/-- A file system without the settings file. -/
def disk_empty : Disk := fun _ => none

/-- A file system whose settings file holds `config`. -/
def disk_with (config : GKeyFile) : Disk :=
  fun file => if file = SETTINGS_STORAGE_PATH then some config else none

/-- A key file with `AlwaysOn=true` in group `Settings`. -/
def config_always_on : GKeyFile := [("Settings", [("AlwaysOn", "true")])]

/-- A key file with `AlwaysOn=false` followed by a space. -/
def config_always_off : GKeyFile := [("Settings", [("AlwaysOn", "false ")])]

/-- A key file with `AlwaysOn=1`. -/
def config_always_one : GKeyFile := [("Settings", [("AlwaysOn", "1")])]

/-- The text `true` followed by a vertical tab. -/
def value_true_vertical_tab : String := String.mk ("true".toList ++ [Char.ofNat 11])

/-- A key file whose `AlwaysOn` is `true` followed by a vertical tab. -/
def config_vertical_tab : GKeyFile :=
  [("Settings", [("AlwaysOn", value_true_vertical_tab)])]

/-- A key file whose group `Settings` has no key `AlwaysOn`. -/
def config_without_key : GKeyFile := [("Settings", [("Other", "true")])]

/-! ## Recomputing and forwarding the power request -/

/-- C1: with a host reference held, `repowerd_plugin_update_power` (and the
enabled-changed handler, which only calls it) returns, makes exactly one call,
`nfc_manager_request_power` on the held host with the argument
`enabled && (always_on || screen_on)`, and leaves the plugin record as it was;
this for all values of the three booleans. -/
theorem update_power_requests_once (heap : Heap) (self : RepowerdPlugin)
    (manager caller : NfcManagerPtr) (h : self.manager = some manager) :
    repowerd_plugin_update_power heap self
        = some (self, [Call.nfc_manager_request_power manager
            ((heap manager).enabled && (self.always_on || self.screen_on))])
      ∧ repowerd_plugin_manager_state_handler heap caller self
        = some (self, [Call.nfc_manager_request_power manager
            ((heap manager).enabled && (self.always_on || self.screen_on))]) := by
  simp [repowerd_plugin_manager_state_handler, repowerd_plugin_update_power, h]

/-- Witness of C1: a started plugin with the screen on and an enabled host
requests power on; with a disabled host it requests power off. -/
theorem update_power_requests_once_witness :
    plugin_started.manager = some 7
      ∧ repowerd_plugin_update_power heap_enabled plugin_started
        = some (plugin_started, [Call.nfc_manager_request_power 7 true])
      ∧ repowerd_plugin_update_power heap_disabled plugin_started
        = some (plugin_started, [Call.nfc_manager_request_power 7 false]) :=
  ⟨by decide,
    (update_power_requests_once heap_enabled plugin_started 7 7 (by decide)).1,
    (update_power_requests_once heap_disabled plugin_started 7 7 (by decide)).1⟩

/-! ## The display signal -/

/-- C2: with a host reference held, a display signal whose parameters are a pair
of integers `(state, reason)` sets `screen_on` to `state == 1`, touches no other
field, and makes exactly one power request, with the argument
`enabled && (always_on || state == 1)`; the record and the request are the same
for any other value of `reason`. -/
theorem display_signal_well_formed (heap : Heap) (self : RepowerdPlugin)
    (manager : NfcManagerPtr) (state reason : Int) (h : self.manager = some manager) :
    repowerd_display_signal_cb heap [.int32 state, .int32 reason] self
        = some ({ self with screen_on := decide (state = 1) },
            [Call.printf [.int32 state, .int32 reason],
              Call.nfc_manager_request_power manager
                ((heap manager).enabled && (self.always_on || decide (state = 1)))])
      ∧ ∀ other : Int,
          Outcome.policy (repowerd_display_signal_cb heap [.int32 state, .int32 other] self)
            = Outcome.policy
                (repowerd_display_signal_cb heap [.int32 state, .int32 reason] self) := by
  simp [repowerd_display_signal_cb, repowerd_plugin_update_power, g_variant_get_ii, h,
    Outcome.policy, Call.isRequestPower]

/-- Witness of C2: parameters `(1, 0)` give `screen_on = true` and parameters
`(0, 0)` give `screen_on = false`, each with one freshly computed request. -/
theorem display_signal_well_formed_witness :
    plugin_started.manager = some 7
      ∧ repowerd_display_signal_cb heap_enabled [.int32 1, .int32 0] plugin_started
        = some ({ plugin_started with screen_on := true },
            [Call.printf [.int32 1, .int32 0], Call.nfc_manager_request_power 7 true])
      ∧ repowerd_display_signal_cb heap_enabled [.int32 0, .int32 0] plugin_started
        = some ({ plugin_started with screen_on := false },
            [Call.printf [.int32 0, .int32 0], Call.nfc_manager_request_power 7 false]) :=
  ⟨by decide,
    (display_signal_well_formed heap_enabled plugin_started 7 1 0 (by decide)).1,
    (display_signal_well_formed heap_enabled plugin_started 7 0 0 (by decide)).1⟩

/-- C3, as stated, fails: parameters with a single field do not parse as a pair of
integers, yet the callback turns `screen_on` from true to false and makes a power
request (power off, where the last request for this state was power on). -/
theorem malformed_signal_changes_policy :
    g_variant_get_ii [.int32 1] = none
      ∧ plugin_started.screen_on = true
      ∧ repowerd_plugin_update_power heap_enabled plugin_started
        = some (plugin_started, [Call.nfc_manager_request_power 7 true])
      ∧ repowerd_display_signal_cb heap_enabled [.int32 1] plugin_started
        = some ({ plugin_started with screen_on := false },
            [Call.printf [.int32 1], Call.nfc_manager_request_power 7 false]) := by
  decide

/-- C3, amended: with a host reference held, parameters that do not parse as a
pair of integers leave `state` at its initial 0, so the callback sets `screen_on`
to false, touches no other field, and makes exactly one power request, with the
argument `enabled && always_on`. -/
theorem display_signal_malformed (heap : Heap) (self : RepowerdPlugin)
    (manager : NfcManagerPtr) (parameters : GVariant)
    (h : self.manager = some manager) (hparse : g_variant_get_ii parameters = none) :
    repowerd_display_signal_cb heap parameters self
      = some ({ self with screen_on := false },
          [Call.printf parameters,
            Call.nfc_manager_request_power manager
              ((heap manager).enabled && self.always_on)]) := by
  simp [repowerd_display_signal_cb, repowerd_plugin_update_power, hparse, h]

/-- Witness of C3 amended: a payload with one field, and a payload whose first
field is a string. -/
theorem display_signal_malformed_witness :
    plugin_started.manager = some 7
      ∧ g_variant_get_ii [.string "on", .int32 0] = none
      ∧ repowerd_display_signal_cb heap_enabled [.string "on", .int32 0] plugin_started
        = some ({ plugin_started with screen_on := false },
            [Call.printf [.string "on", .int32 0],
              Call.nfc_manager_request_power 7 (true && false)]) :=
  ⟨by decide, by decide,
    display_signal_malformed heap_enabled plugin_started 7 [.string "on", .int32 0]
      (by decide) (by decide)⟩

/-! ## Start -/

/-- What `repowerd_plugin_start` does when `always_on` is set. -/
theorem start_always_on_eq (env : StartEnv) (heap : Heap) (self : RepowerdPlugin)
    (manager : NfcManagerPtr) (h : self.always_on = true) :
    repowerd_plugin_start env heap self manager
      = some ({ self with
            manager := some manager
            manager_event_id := self.manager_event_id.set MANAGER_ENABLED env.handler_id },
          [Call.log "Starting", Call.nfc_manager_ref manager,
            Call.nfc_manager_add_enabled_changed_handler manager,
            Call.nfc_manager_request_power manager (heap manager).enabled],
          true) := by
  simp [repowerd_plugin_start, repowerd_plugin_update_power, nfc_manager_ref, h]

/-- What `repowerd_plugin_start` does when `always_on` is not set and the bus
connects. -/
theorem start_tracking_eq (env : StartEnv) (heap : Heap) (self : RepowerdPlugin)
    (manager : NfcManagerPtr) (connection : GDBusConnectionPtr)
    (h : self.always_on = false) (hbus : env.bus = some connection) :
    repowerd_plugin_start env heap self manager
      = some ({ self with
            manager := some manager
            manager_event_id := self.manager_event_id.set MANAGER_ENABLED env.handler_id
            connection := some connection
            subscription_id := env.fresh_subscription_id
            screen_on := true },
          [Call.log "Starting", Call.nfc_manager_ref manager,
            Call.nfc_manager_add_enabled_changed_handler manager,
            Call.g_bus_get_sync,
            Call.g_dbus_connection_signal_subscribe (some connection),
            Call.nfc_manager_request_power manager (heap manager).enabled,
            Call.nfc_manager_request_power manager (heap manager).enabled],
          true) := by
  simp [repowerd_plugin_start, repowerd_plugin_update_power, nfc_manager_ref,
    g_dbus_connection_signal_subscribe, h, hbus]

/-- What `repowerd_plugin_start` does when `always_on` is not set and the bus
connection fails. -/
theorem start_bus_failed_eq (env : StartEnv) (heap : Heap) (self : RepowerdPlugin)
    (manager : NfcManagerPtr) (h : self.always_on = false) (hbus : env.bus = none) :
    repowerd_plugin_start env heap self manager
      = some ({ self with
            manager := some manager
            manager_event_id := self.manager_event_id.set MANAGER_ENABLED env.handler_id
            connection := none
            subscription_id := 0
            screen_on := true },
          [Call.log "Starting", Call.nfc_manager_ref manager,
            Call.nfc_manager_add_enabled_changed_handler manager,
            Call.g_bus_get_sync,
            Call.log "Failed to connect to system bus",
            Call.g_dbus_connection_signal_subscribe none,
            Call.nfc_manager_request_power manager (heap manager).enabled,
            Call.nfc_manager_request_power manager (heap manager).enabled],
          true) := by
  simp [repowerd_plugin_start, repowerd_plugin_update_power, nfc_manager_ref,
    g_dbus_connection_signal_subscribe, h, hbus]

/-- C4, as stated, fails: on a freshly created plugin (`always_on` false, no host
reference yet) whose bus connects, Start makes two power requests, not one. -/
theorem start_tracking_requests_twice :
    g_object_new_zeroed.manager = none
      ∧ g_object_new_zeroed.always_on = false
      ∧ repowerd_plugin_start env_bus_ok heap_enabled g_object_new_zeroed 7
        = some ({ manager := some 7, connection := some 9, manager_event_id := [5],
                  subscription_id := 3, screen_on := true, always_on := false },
            [Call.log "Starting", Call.nfc_manager_ref 7,
              Call.nfc_manager_add_enabled_changed_handler 7,
              Call.g_bus_get_sync,
              Call.g_dbus_connection_signal_subscribe (some 9),
              Call.nfc_manager_request_power 7 true,
              Call.nfc_manager_request_power 7 true],
            true)
      ∧ (repowerd_plugin_start env_bus_ok heap_enabled g_object_new_zeroed 7).map
          (fun r => (r.2.1.filter Call.isRequestPower).length) = some 2 := by
  decide

/-- C4, amended: for every plugin state and every host, Start returns, and its
calls are a wiring part with no power request in it (it holds the registration
of the enabled-changed handler and, when `always_on` is false, the signal
subscription) followed by one power request when `always_on` is true and by two
when it is false, each on the host with the host's enabled flag as argument. -/
theorem start_requests_after_wiring (env : StartEnv) (heap : Heap)
    (self : RepowerdPlugin) (manager : NfcManagerPtr) :
    ∃ plugin wiring,
      repowerd_plugin_start env heap self manager
        = some (plugin,
            wiring ++ List.replicate (if self.always_on = true then 1 else 2)
              (Call.nfc_manager_request_power manager (heap manager).enabled),
            true)
      ∧ wiring.any Call.isRequestPower = false
      ∧ Call.nfc_manager_add_enabled_changed_handler manager ∈ wiring
      ∧ (self.always_on = false →
          Call.g_dbus_connection_signal_subscribe env.bus ∈ wiring) := by
  cases h : self.always_on
  · cases hbus : env.bus with
    | none =>
      rw [start_bus_failed_eq env heap self manager h hbus]
      refine ⟨_, [Call.log "Starting", Call.nfc_manager_ref manager,
        Call.nfc_manager_add_enabled_changed_handler manager, Call.g_bus_get_sync,
        Call.log "Failed to connect to system bus",
        Call.g_dbus_connection_signal_subscribe none], rfl, ?_, ?_, ?_⟩
      · simp [Call.isRequestPower]
      · simp
      · simp
    | some connection =>
      rw [start_tracking_eq env heap self manager connection h hbus]
      refine ⟨_, [Call.log "Starting", Call.nfc_manager_ref manager,
        Call.nfc_manager_add_enabled_changed_handler manager, Call.g_bus_get_sync,
        Call.g_dbus_connection_signal_subscribe (some connection)], rfl, ?_, ?_, ?_⟩
      · simp [Call.isRequestPower]
      · simp
      · simp
  · rw [start_always_on_eq env heap self manager h]
    refine ⟨_, [Call.log "Starting", Call.nfc_manager_ref manager,
      Call.nfc_manager_add_enabled_changed_handler manager], rfl, ?_, ?_, ?_⟩
    · simp [Call.isRequestPower]
    · simp
    · simp

/-- C5, the code at the failing input: on a freshly created plugin (`always_on`
false) whose bus connection fails, Start logs the failure and then still calls
`g_dbus_connection_signal_subscribe`, with the NULL connection; `screen_on` is
true, the request for `enabled` is forwarded, and Start returns TRUE. -/
theorem start_bus_failed_still_subscribes :
    repowerd_plugin_start env_bus_failed heap_enabled g_object_new_zeroed 7
        = some ({ manager := some 7, connection := none, manager_event_id := [5],
                  subscription_id := 0, screen_on := true, always_on := false },
            [Call.log "Starting", Call.nfc_manager_ref 7,
              Call.nfc_manager_add_enabled_changed_handler 7,
              Call.g_bus_get_sync,
              Call.log "Failed to connect to system bus",
              Call.g_dbus_connection_signal_subscribe none,
              Call.nfc_manager_request_power 7 true,
              Call.nfc_manager_request_power 7 true],
            true)
      ∧ (repowerd_plugin_start env_bus_failed heap_enabled g_object_new_zeroed 7).map
          (fun r => r.2.1.any Call.isSubscribe) = some true := by
  decide

/-- C7: when `always_on` is set, Start returns having made no call to the bus
library (no `g_bus_get_sync`, no `g_dbus_connection_signal_subscribe`), and
`connection`, `subscription_id` and `screen_on` are what they were before. -/
theorem start_always_on_no_subscription (env : StartEnv) (heap : Heap)
    (self : RepowerdPlugin) (manager : NfcManagerPtr) (h : self.always_on = true) :
    ∃ plugin calls,
      repowerd_plugin_start env heap self manager = some (plugin, calls, true)
      ∧ calls.any Call.isBusGet = false
      ∧ calls.any Call.isSubscribe = false
      ∧ calls.any Call.isBusCall = false
      ∧ plugin.connection = self.connection
      ∧ plugin.subscription_id = self.subscription_id
      ∧ plugin.screen_on = self.screen_on := by
  refine ⟨_, _, start_always_on_eq env heap self manager h, ?_, ?_, ?_, rfl, rfl, rfl⟩ <;>
    simp [Call.isBusGet, Call.isSubscribe, Call.isBusCall]

/-- Witness of C7: a plugin configured always on, started on host 7 while the bus
would connect. -/
theorem start_always_on_no_subscription_witness :
    plugin_always_on.always_on = true
      ∧ ∃ plugin calls,
        repowerd_plugin_start env_bus_ok heap_enabled plugin_always_on 7
          = some (plugin, calls, true)
        ∧ calls.any Call.isBusGet = false
        ∧ calls.any Call.isSubscribe = false
        ∧ calls.any Call.isBusCall = false
        ∧ plugin.connection = plugin_always_on.connection
        ∧ plugin.subscription_id = plugin_always_on.subscription_id
        ∧ plugin.screen_on = plugin_always_on.screen_on :=
  ⟨by decide,
    start_always_on_no_subscription env_bus_ok heap_enabled plugin_always_on 7 (by decide)⟩

/-! ## Stop -/

/-- C8: on a plugin holding neither a host reference nor a connection, Stop leaves
every field as it was; its calls are the log line and the handler removal and
unref with a NULL host, so no call reaches a host object and none goes to the
bus library. -/
theorem stop_never_started (self : RepowerdPlugin) (hm : self.manager = none)
    (hc : self.connection = none) :
    repowerd_plugin_stop self
        = (self, [Call.log "Stopping",
            Call.nfc_manager_remove_all_handlers none self.manager_event_id,
            Call.nfc_manager_unref none])
      ∧ (repowerd_plugin_stop self).2.any Call.onHost = false
      ∧ (repowerd_plugin_stop self).2.any Call.isBusCall = false := by
  cases self
  simp only at hm hc
  subst hm hc
  simp [repowerd_plugin_stop, nfc_manager_remove_all_handlers, Call.onHost,
    Call.isBusCall]

/-- Witness of C8: Stop on the freshly created plugin. -/
theorem stop_never_started_witness :
    g_object_new_zeroed.manager = none
      ∧ g_object_new_zeroed.connection = none
      ∧ repowerd_plugin_stop g_object_new_zeroed
        = (g_object_new_zeroed, [Call.log "Stopping",
            Call.nfc_manager_remove_all_handlers none [0],
            Call.nfc_manager_unref none]) :=
  ⟨by decide, by decide, (stop_never_started g_object_new_zeroed (by decide) (by decide)).1⟩

/-- C9: for every plugin state, a second Stop leaves the record the first Stop
produced as it is, and its calls are the log line and the handler removal and
unref with a NULL host: no unsubscribe, no connection close, no release of a
host reference. -/
theorem stop_twice (self : RepowerdPlugin) :
    (repowerd_plugin_stop (repowerd_plugin_stop self).1).1 = (repowerd_plugin_stop self).1
      ∧ (repowerd_plugin_stop (repowerd_plugin_stop self).1).2
        = [Call.log "Stopping",
            Call.nfc_manager_remove_all_handlers none
              (repowerd_plugin_stop self).1.manager_event_id,
            Call.nfc_manager_unref none]
      ∧ (repowerd_plugin_stop (repowerd_plugin_stop self).1).2.any Call.isUnsubscribe = false
      ∧ (repowerd_plugin_stop (repowerd_plugin_stop self).1).2.any Call.isClose = false
      ∧ (repowerd_plugin_stop (repowerd_plugin_stop self).1).2.any Call.releasesHost
          = false := by
  cases hc : self.connection <;>
    simp [repowerd_plugin_stop, nfc_manager_remove_all_handlers, hc, Call.isUnsubscribe,
      Call.isClose, Call.releasesHost]

/-! ## Reading the configuration -/

/-- Dropping a leading run of white space: a prefix made of white space only
disappears. -/
theorem dropWhile_isspace_append (xs ys : List Char)
    (h : ∀ c ∈ xs, g_ascii_isspace c = true) :
    (xs ++ ys).dropWhile g_ascii_isspace = ys.dropWhile g_ascii_isspace := by
  induction xs with
  | nil => rfl
  | cons x xs ih =>
    have hx : g_ascii_isspace x = true := h x (List.mem_cons_self x xs)
    have hxs : ∀ c ∈ xs, g_ascii_isspace c = true :=
      fun c hc => h c (List.mem_cons_of_mem x hc)
    simp [List.dropWhile, hx, ih hxs]

/-- A character with one of the five white space codes is white space. -/
theorem isspace_of_code (c : Char) (h : c.toNat ∈ [9, 10, 12, 13, 32]) :
    g_ascii_isspace c = true := by
  simp at h
  simp only [g_ascii_isspace, Bool.or_eq_true, decide_eq_true_eq]
  omega

/-- A character with none of the five white space codes is not white space. -/
theorem not_isspace_of_code (c : Char) (h : c.toNat ∉ [9, 10, 12, 13, 32]) :
    g_ascii_isspace c = false := by
  simp at h
  cases hs : g_ascii_isspace c with
  | false => rfl
  | true =>
    simp only [g_ascii_isspace, Bool.or_eq_true, decide_eq_true_eq] at hs
    omega

/-- The text left of the trailing white space of `text ++ ws`, when `ws` is white
space and the reversed `text` does not start with white space. -/
theorem trim_text_append (text ws : List Char)
    (hws : ∀ c ∈ ws, c.toNat ∈ [9, 10, 12, 13, 32])
    (htext : text.reverse.dropWhile g_ascii_isspace = text.reverse) :
    ((text ++ ws).reverse.dropWhile g_ascii_isspace).reverse = text := by
  have h : ∀ c ∈ ws.reverse, g_ascii_isspace c = true :=
    fun c hc => isspace_of_code c (hws c (List.mem_reverse.mp hc))
  rw [List.reverse_append, dropWhile_isspace_append ws.reverse text.reverse h, htext,
    List.reverse_reverse]

/-- A value that does not end in white space is compared as it is. -/
theorem trim_no_trailing_space (value : List Char)
    (hlast : ∀ c, value.getLast? = some c → c.toNat ∉ [9, 10, 12, 13, 32]) :
    (value.reverse.dropWhile g_ascii_isspace).reverse = value := by
  have hrev : value.reverse.dropWhile g_ascii_isspace = value.reverse := by
    cases hr : value.reverse with
    | nil => rfl
    | cons c rest =>
      have hc : value.getLast? = some c := by
        rw [List.getLast?_eq_head?_reverse, hr]
        rfl
      simp [List.dropWhile, not_isspace_of_code c (hlast c hc)]
  rw [hrev, List.reverse_reverse]

/-- C10: run on the zeroed instance `g_object_new` provides, `repowerd_plugin_init`
(a total function; it has no error result) gives `always_on = false` when the
settings file cannot be loaded, and `always_on = false` when it loads but group
`Settings` has no key `AlwaysOn`.  When the key is there, a value `true` or `1`
gives `always_on = true` and a value `false` or `0` gives `always_on = false`,
trailing tabs, line feeds, form feeds, carriage returns and spaces ignored; a
value that does not end in such white space and is none of these four texts
gives `always_on = false`. -/
theorem init_always_on (disk : Disk) :
    (disk SETTINGS_STORAGE_PATH = none →
        (repowerd_plugin_init disk g_object_new_zeroed).always_on = false)
      ∧ (∀ config, disk SETTINGS_STORAGE_PATH = some config →
          g_key_file_lookup config SETTINGS_GROUP SETTINGS_KEY_ALWAYS_ON = none →
          (repowerd_plugin_init disk g_object_new_zeroed).always_on = false)
      ∧ (∀ config value text ws, disk SETTINGS_STORAGE_PATH = some config →
          g_key_file_lookup config SETTINGS_GROUP SETTINGS_KEY_ALWAYS_ON = some value →
          value.toList = text ++ ws →
          (∀ c ∈ ws, c.toNat ∈ [9, 10, 12, 13, 32]) →
          ((text = "true".toList ∨ text = "1".toList →
              (repowerd_plugin_init disk g_object_new_zeroed).always_on = true)
            ∧ (text = "false".toList ∨ text = "0".toList →
              (repowerd_plugin_init disk g_object_new_zeroed).always_on = false)))
      ∧ (∀ config value, disk SETTINGS_STORAGE_PATH = some config →
          g_key_file_lookup config SETTINGS_GROUP SETTINGS_KEY_ALWAYS_ON = some value →
          (∀ c, value.toList.getLast? = some c → c.toNat ∉ [9, 10, 12, 13, 32]) →
          value.toList ≠ "true".toList → value.toList ≠ "1".toList →
          value.toList ≠ "false".toList → value.toList ≠ "0".toList →
          (repowerd_plugin_init disk g_object_new_zeroed).always_on = false) := by
  refine ⟨?_, ?_, ?_, ?_⟩
  · intro h
    simp [repowerd_plugin_init, g_key_file_load_from_file, h, g_object_new_zeroed]
  · intro config h hkey
    simp [repowerd_plugin_init, g_key_file_load_from_file, g_key_file_get_boolean, h, hkey]
  · intro config value text ws h hkey hvalue hws
    have htrim : text.reverse.dropWhile g_ascii_isspace = text.reverse →
        ((value.toList.reverse.dropWhile g_ascii_isspace).reverse) = text := by
      intro htext
      rw [hvalue]
      exact trim_text_append text ws hws htext
    refine ⟨?_, ?_⟩
    · intro ht
      have hv : (value.toList.reverse.dropWhile g_ascii_isspace).reverse = text :=
        htrim (by rcases ht with rfl | rfl <;> decide)
      have hp : g_key_file_parse_value_as_boolean value = some true := by
        simp only [g_key_file_parse_value_as_boolean, hv]
        rcases ht with rfl | rfl <;> decide
      simp [repowerd_plugin_init, g_key_file_load_from_file, g_key_file_get_boolean, h,
        hkey, hp]
    · intro ht
      have hv : (value.toList.reverse.dropWhile g_ascii_isspace).reverse = text :=
        htrim (by rcases ht with rfl | rfl <;> decide)
      have hp : g_key_file_parse_value_as_boolean value = some false := by
        simp only [g_key_file_parse_value_as_boolean, hv]
        rcases ht with rfl | rfl <;> decide
      simp [repowerd_plugin_init, g_key_file_load_from_file, g_key_file_get_boolean, h,
        hkey, hp]
  · intro config value h hkey hlast h1 h2 h3 h4
    have hv : (value.toList.reverse.dropWhile g_ascii_isspace).reverse = value.toList :=
      trim_no_trailing_space value.toList hlast
    have hp : g_key_file_parse_value_as_boolean value = none := by
      simp only [g_key_file_parse_value_as_boolean, hv]
      rw [if_neg (fun hor => hor.elim h1 h2), if_neg (fun hor => hor.elim h3 h4)]
    simp [repowerd_plugin_init, g_key_file_load_from_file, g_key_file_get_boolean, h,
      hkey, hp]

/-- Witness of C10: no file; a file without the key; files with `AlwaysOn=true`,
`AlwaysOn=1` and `AlwaysOn=false` followed by a space; and a file whose value is
`true` followed by a vertical tab, which is not a boolean. -/
theorem init_always_on_witness :
    (repowerd_plugin_init disk_empty g_object_new_zeroed).always_on = false
      ∧ (repowerd_plugin_init (disk_with config_without_key) g_object_new_zeroed).always_on
          = false
      ∧ (repowerd_plugin_init (disk_with config_always_on) g_object_new_zeroed).always_on
          = true
      ∧ (repowerd_plugin_init (disk_with config_always_one) g_object_new_zeroed).always_on
          = true
      ∧ (repowerd_plugin_init (disk_with config_always_off) g_object_new_zeroed).always_on
          = false
      ∧ (repowerd_plugin_init (disk_with config_vertical_tab) g_object_new_zeroed).always_on
          = false :=
  ⟨(init_always_on disk_empty).1 rfl,
    (init_always_on (disk_with config_without_key)).2.1 config_without_key (by decide)
      (by decide),
    ((init_always_on (disk_with config_always_on)).2.2.1 config_always_on "true"
      "true".toList [] (by decide) (by decide) (by decide) (by decide)).1
      (Or.inl rfl),
    ((init_always_on (disk_with config_always_one)).2.2.1 config_always_one "1"
      "1".toList [] (by decide) (by decide) (by decide) (by decide)).1
      (Or.inr rfl),
    ((init_always_on (disk_with config_always_off)).2.2.1 config_always_off "false "
      "false".toList [Char.ofNat 32] (by decide) (by decide) (by decide) (by decide)).2
      (Or.inl rfl),
    (init_always_on (disk_with config_vertical_tab)).2.2.2 config_vertical_tab
      value_true_vertical_tab (by decide) (by decide) (by decide) (by decide) (by decide)
      (by decide) (by decide)⟩

/-! ## Always on -/

/-- With `always_on` set and a host reference held, handling one notification
succeeds, keeps both facts, and makes exactly one power request: the enabled
flag of the host at that moment. -/
theorem deliver_always_on (manager : NfcManagerPtr) (w : World) (e : Event)
    (ha : w.plugin.always_on = true) (hm : w.plugin.manager = some manager) :
    ∃ w1 calls, deliver manager w e = some (w1, calls)
      ∧ w1.plugin.always_on = true
      ∧ w1.plugin.manager = some manager
      ∧ calls.filter Call.isRequestPower
        = [Call.nfc_manager_request_power manager (w1.heap manager).enabled] := by
  cases e with
  | enabled_changed enabled =>
    refine ⟨{ heap := host_set_enabled w.heap manager enabled, plugin := w.plugin },
      [Call.nfc_manager_request_power manager
        (host_set_enabled w.heap manager enabled manager).enabled], ?_, ha, hm, ?_⟩
    · simp [deliver, repowerd_plugin_manager_state_handler, repowerd_plugin_update_power,
        ha, hm]
    · simp [Call.isRequestPower]
  | display_signal parameters =>
    refine ⟨{ heap := w.heap
              plugin := { w.plugin with
                screen_on := decide (((g_variant_get_ii parameters).getD (0, 0)).1 = 1) } },
      [Call.printf parameters,
        Call.nfc_manager_request_power manager (w.heap manager).enabled], ?_, ha, hm, ?_⟩
    · simp [deliver, repowerd_display_signal_cb, repowerd_plugin_update_power, ha, hm]
    · simp [Call.isRequestPower]

/-- With `always_on` set and a host reference held, every sequence of
notifications is handled to the end, and the power requests made for each
notification are exactly one request carrying the enabled flag of that moment. -/
theorem run_always_on (manager : NfcManagerPtr) (events : List Event) :
    ∀ w : World, w.plugin.always_on = true → w.plugin.manager = some manager →
      ∃ w2 observed, run manager w events = some (w2, observed)
        ∧ observed.length = events.length
        ∧ ∀ o ∈ observed, o.2.filter Call.isRequestPower
            = [Call.nfc_manager_request_power manager o.1] := by
  induction events with
  | nil =>
    intro w _ _
    exact ⟨w, [], rfl, rfl, by simp⟩
  | cons e es ih =>
    intro w ha hm
    obtain ⟨w1, calls, hd, ha1, hm1, hcalls⟩ := deliver_always_on manager w e ha hm
    obtain ⟨w2, observed, hr, hlen, hobs⟩ := ih w1 ha1 hm1
    refine ⟨w2, ((w1.heap manager).enabled, calls) :: observed, ?_, ?_, ?_⟩
    · simp [run, hd, hr]
    · simp [hlen]
    · intro o ho
      rcases List.mem_cons.mp ho with rfl | ho
      · exact hcalls
      · exact hobs o ho

/-- C6: when `always_on` is set, Start returns having made one power request, the
host's enabled flag; after it every finite sequence of enabled-changed
notifications and display signals, whatever their parameters, is handled to the
end, and for each notification the plugin makes exactly one power request, whose
argument is the host's enabled flag at that moment. -/
theorem always_on_forwards_enabled (env : StartEnv) (heap : Heap) (self : RepowerdPlugin)
    (manager : NfcManagerPtr) (events : List Event) (h : self.always_on = true) :
    ∃ plugin calls w observed,
      repowerd_plugin_start env heap self manager = some (plugin, calls, true)
      ∧ calls.filter Call.isRequestPower
        = [Call.nfc_manager_request_power manager (heap manager).enabled]
      ∧ run manager { heap := heap, plugin := plugin } events = some (w, observed)
      ∧ observed.length = events.length
      ∧ ∀ o ∈ observed, o.2.filter Call.isRequestPower
          = [Call.nfc_manager_request_power manager o.1] := by
  obtain ⟨w, observed, hr, hlen, hobs⟩ :=
    run_always_on manager events
      { heap := heap
        plugin := { self with
          manager := some manager
          manager_event_id := self.manager_event_id.set MANAGER_ENABLED env.handler_id } }
      h rfl
  exact ⟨_, _, w, observed, start_always_on_eq env heap self manager h,
    by simp [Call.isRequestPower], hr, hlen, hobs⟩

/-- Witness of C6: a plugin configured always on is started on an enabled host;
the display goes off, the host is disabled, a malformed signal arrives, the host
is enabled again. -/
theorem always_on_forwards_enabled_witness :
    plugin_always_on.always_on = true
      ∧ ∃ plugin calls w observed,
        repowerd_plugin_start env_bus_ok heap_enabled plugin_always_on 7
          = some (plugin, calls, true)
        ∧ calls.filter Call.isRequestPower
          = [Call.nfc_manager_request_power 7 (heap_enabled 7).enabled]
        ∧ run 7 { heap := heap_enabled, plugin := plugin }
            [Event.display_signal [.int32 0, .int32 0], Event.enabled_changed false,
              Event.display_signal [.int32 1], Event.enabled_changed true]
          = some (w, observed)
        ∧ observed.length = 4
        ∧ ∀ o ∈ observed, o.2.filter Call.isRequestPower
            = [Call.nfc_manager_request_power 7 o.1] :=
  ⟨by decide,
    always_on_forwards_enabled env_bus_ok heap_enabled plugin_always_on 7
      [Event.display_signal [.int32 0, .int32 0], Event.enabled_changed false,
        Event.display_signal [.int32 1], Event.enabled_changed true] (by decide)⟩

end Repowerd
